import Mathlib

/-!
# gitkit-go: a shallow embedding of `gitkit/client.go` and `gitkit/relyingparty.go`

The Go code is embedded as pure Lean functions.

* A Go function returning `(v, error)` returns a pair whose last component is an
  `Option GoError` (`none` is Go's `nil` error).
* A Go function that can abort (failed type assertion, index out of range) returns
  a `GoResult`, whose `panic` constructor is the abort.
* Everything the code sends over the network is recorded in a `Trace`, in order.
* The libraries the code calls but does not contain (the HTTP transport, the clock,
  URL parsing, the JWT library) are the fields of `HttpClient` and `Lib`; theorems
  quantify over them.
* `encoding/json` is embedded on JSON syntax trees: a response body is the first
  JSON value of the stream (`none` when there is none), and decoding follows the
  target's Go type, as `json.Decoder.Decode` does.
* The access-token step of `doInvoke` is an argument, `auth`, of `doInvoke` and of
  every operation built on it; the program is the instance
  `auth := relyingParty.getAccessToken`.
* Error texts produced by libraries are abbreviated; error texts produced by the
  repository's own code are exact. The debugging output `fmt.Println(param)` of
  `getAccessToken` is not part of the embedding.
-/

namespace Gitkit

/-! ## Go values -/

/-- A Go `error` value, identified with its `Error()` text. -/
abbrev GoError := String

/-- A Go `[]byte`. -/
abbrev Bytes := List UInt8

/-- The outcome of a Go call that may abort with a run-time panic. -/
inductive GoResult (α : Type) where
  | ret (a : α)
  | panic (msg : String)
  deriving Repr

/-- A JSON document. Numbers keep their literal text. -/
inductive Json where
  | null
  | bool (b : Bool)
  | num (lit : String)
  | str (s : String)
  | arr (xs : List Json)
  | obj (kvs : List (String × Json))
  deriving Repr

/-- A Go `map[string]V`: entries kept in increasing key order, one entry per key. -/
abbrev GoMap (V : Type) := List (String × V)

/-- Go's `<` on strings: lexicographic order. -/
def strLt (a b : String) : Bool :=
  go a.data b.data
where
  /-- Lexicographic comparison of the characters. -/
  go : List Char → List Char → Bool
    | _, [] => false
    | [], _ :: _ => true
    | x :: xs, y :: ys =>
      if x.toNat < y.toNat then true
      else if y.toNat < x.toNat then false
      else go xs ys

/-- The Go assignment `m[k] = v`. -/
def GoMap.set {V : Type} : GoMap V → String → V → GoMap V
  | [], k, v => [(k, v)]
  | (k', v') :: rest, k, v =>
    if strLt k k' then (k, v) :: (k', v') :: rest
    else if k = k' then (k, v) :: rest
    else (k', v') :: GoMap.set rest k v

/-- The Go expression `m[k]` on a `map[string]string`: the zero value when absent. -/
def GoMap.index (m : GoMap String) (k : String) : String :=
  (m.lookup k).getD ""

/-- The Go values this program passes to `json.Marshal` as request parameters. -/
inductive GoVal where
  | str (s : String)
  | uint (n : Nat)
  | strs (xs : List String)
  | map (m : List (String × GoVal))
  deriving Repr

/-- The function `json.Marshal` on request parameters (map keys are emitted in sorted
order, which is the order a `GoMap` is kept in). It cannot fail on these values. -/
def jsonMarshal : GoVal → Json
  | .str s => .str s
  | .uint n => .num (toString n)
  | .strs xs => .arr (xs.map Json.str)
  | .map m => .obj (marshalEntries m)
where
  /-- The members of a marshalled map. -/
  marshalEntries : List (String × GoVal) → List (String × Json)
    | [] => []
    | (k, v) :: rest => (k, jsonMarshal v) :: marshalEntries rest

/-! ## `encoding/json` decoding -/

/-- One byte-or-rune step of the case folding `encoding/json` uses to match an object
key against a struct field name: ASCII letters match regardless of case, and the
field letters s and k also match U+017F and U+212A. -/
def foldChar (f c : Char) : Bool :=
  f.toLower == c.toLower
    || (f.toLower == 's' && c == Char.ofNat 0x17F)
    || (f.toLower == 'k' && c == Char.ofNat 0x212A)

/-- Whether the object key `key` selects the struct field named `field`. -/
def foldEq (field key : String) : Bool :=
  go field.data key.data
where
  /-- Character-wise comparison. -/
  go : List Char → List Char → Bool
    | [], [] => true
    | f :: fs, c :: cs => foldChar f c && go fs cs
    | _, _ => false

/-- A decoder for one Go type: from a JSON value and the target's current value to
the target's new value and the error `encoding/json` saves, if any. -/
abbrev Decoder (α : Type) := Json → α → α × Option GoError

/-- Keeps the first saved error, as `decodeState.saveError` does. -/
def saveError (old new : Option GoError) : Option GoError :=
  match old with
  | some e => some e
  | none => new

/-- Decoding into a Go `string`. -/
def unmarshalString : Decoder String
  | .str s, _ => (s, none)
  | .null, cur => (cur, none)
  | _, cur => (cur, some "json: cannot unmarshal value into Go value of type string")

/-- Decoding a JSON object into a Go struct: each member whose key selects a field
is decoded into it, in order. `step` decodes one member. -/
def unmarshalStruct {α : Type} (step : String → Json → α → α × Option GoError) :
    Decoder α
  | .obj kvs, cur =>
    kvs.foldl (fun (acc : α × Option GoError) kv =>
      let r := step kv.1 kv.2 acc.1
      (r.1, saveError acc.2 r.2)) (cur, none)
  | .null, cur => (cur, none)
  | _, cur => (cur, some "json: cannot unmarshal value into Go value of struct type")

/-- The inner struct of the error envelope: `struct { Message string }`. -/
structure ErrorBody where
  Message : String
  deriving DecidableEq, Repr

/-- The error envelope of `parseError`: `struct { Error struct { Message string } }`. -/
structure ErrResp where
  Error : ErrorBody
  deriving DecidableEq, Repr

/-- Decoding into the inner struct of the error envelope. -/
def unmarshalErrorBody : Decoder ErrorBody :=
  unmarshalStruct fun k v cur =>
    if foldEq "message" k then
      let r := unmarshalString v cur.Message
      ({ cur with Message := r.1 }, r.2)
    else (cur, none)

/-- Decoding into the error envelope. -/
def unmarshalErrResp : Decoder ErrResp :=
  unmarshalStruct fun k v cur =>
    if foldEq "error" k then
      let r := unmarshalErrorBody v cur.Error
      ({ cur with Error := r.1 }, r.2)
    else (cur, none)

/-- Decoding into a Go `map[string]string`. -/
def unmarshalStringMap : Decoder (GoMap String)
  | .obj kvs, cur =>
    kvs.foldl (fun (acc : GoMap String × Option GoError) kv =>
      let r := unmarshalString kv.2 ""
      (GoMap.set acc.1 kv.1 r.1, saveError acc.2 r.2)) (cur, none)
  | .null, _ => ([], none)
  | _, cur => (cur, some "json: cannot unmarshal value into Go value of type map[string]string")

/-- What the caller hands to `Decode` as `v interface{}`: a pointer to a value, or the
value itself. -/
inductive GoRef (α : Type) where
  | ptr (v : α)
  | val (v : α)
  deriving Repr

/-- The value behind a decode target. -/
def GoRef.get {α : Type} : GoRef α → α
  | .ptr v => v
  | .val v => v

/-- A response body as `json.Decoder` sees it: its first JSON value, or `none` when
reading that value fails (empty stream, syntax error, read error). -/
abbrev Body := Option Json

/-- The function `decodeJSON`: `json.NewDecoder(r).Decode(v)`. `Decode` first reads one
JSON value and then refuses every `v` that is not a pointer. Returns the error and the
target's value afterwards. -/
def decodeJSON {α : Type} (dec : Decoder α) (r : Body) (v : GoRef α) :
    Option GoError × α :=
  match r with
  | none => (some "json: cannot read a JSON value", v.get)
  | some j =>
    match v with
    | .val cur => (some "json: Unmarshal(non-pointer)", cur)
    | .ptr cur =>
      let res := dec j cur
      (res.2, res.1)

/-! ## HTTP -/

/-- An `http.Request` as built by `http.NewRequest`. -/
structure Request where
  Method : String
  URL : String
  Header : List (String × String)
  Body : Option Json
  deriving Repr

/-- An `http.Response`: status code, status line and body. -/
structure Response where
  StatusCode : Int
  Status : String
  Body : Body
  deriving Repr

/-- The two methods of `*http.Client` the code calls. -/
structure HttpClient where
  Do : Request → Except GoError Response
  PostForm : String → List (String × List String) → Except GoError Response

/-- One network operation. -/
inductive Event where
  | request (req : Request)
  | postForm (url : String) (form : List (String × List String))
  deriving Repr

/-- The network operations of a call, in order. -/
abbrev Trace := List Event

/-- The function `parseError`. -/
def parseError (api : String) (resp : Response) : Option GoError :=
  if resp.StatusCode ≥ 400 ∧ resp.StatusCode < 500 then
    let errResp : ErrResp := ⟨⟨""⟩⟩
    let r := decodeJSON unmarshalErrResp resp.Body (.ptr errResp)
    let errMsg : String :=
      match r.1 with
      | none => r.2.Error.Message
      | some _ => resp.Status
    some ("gitkit: " ++ api ++ " " ++ toString resp.StatusCode ++ " " ++ errMsg)
  else if resp.StatusCode ≥ 500 then
    some ("gitkit: " ++ api ++ " " ++ toString resp.StatusCode ++ " " ++ resp.Status)
  else none

/-! ## Accounts (`user.go`) -/

/-- The struct `ProviderUserInfo`. -/
structure ProviderUserInfo where
  ProviderID : String
  DisplayName : String
  PhotoURL : String
  FederatedID : String
  deriving DecidableEq, Repr

/-- The struct `User`. A `float64` read from JSON is finite, hence a rational. -/
structure User where
  LocalID : String
  Email : String
  EmailVerified : Bool
  DisplayName : String
  ProviderUserInfo : List ProviderUserInfo
  PhotoURL : String
  PasswordHash : Bytes
  Salt : Bytes
  Version : Int
  PasswordUpdatedAt : ℚ
  deriving DecidableEq, Repr

/-- The zero value of `User`. -/
def User.zero : User :=
  ⟨"", "", false, "", [], "", [], [], 0, 0⟩

/-! ## Libraries outside the repository -/

/-- A value of the claim map of a token under construction. -/
inductive ClaimVal where
  | str (s : String)
  | int64 (n : Int)
  deriving DecidableEq, Repr

/-- A parsed `jwt.Token`: header and claims, both `map[string]interface{}`. -/
structure Token where
  Header : List (String × Json)
  Claims : List (String × Json)
  deriving Repr

/-- The library behaviour the code depends on.
* `now`: `time.Now().Unix()`.
* `urlError`: the error of `http.NewRequest` for a URL it cannot parse.
* `SignedString`: `Token.SignedString` of an RS256 token with the given claims and key.
* `jwtDecode`: the stages of `jwt.Parse` before the key function is called (splitting,
  decoding header and claims, resolving the signing method).
* `jwtVerify`: the stages of `jwt.Parse` after the key function returned a key (time
  claims and signature).
* `unmarshalUser`: `encoding/json` decoding one JSON value into a `User`. -/
structure Lib where
  now : Int
  urlError : String → Option GoError
  SignedString : GoMap ClaimVal → Bytes → Except GoError String
  jwtDecode : String → Except GoError Token
  jwtVerify : String → Token → Bytes → Option GoError
  unmarshalUser : Decoder User

/-- The function `http.NewRequest`, for the methods GET and POST. -/
def NewRequest (lib : Lib) (method url : String) (body : Option Json) :
    Except GoError Request :=
  match lib.urlError url with
  | some e => .error e
  | none => .ok ⟨method, url, [], body⟩

/-- The function `jwt.Parse`: decode, ask the key function for the key, verify. A panic
of the key function propagates, and its error is returned with its text unchanged. The
token returned next to an error is not used by the caller. -/
def jwtParse (lib : Lib) (tokenString : String)
    (keyFunc : Token → GoResult (Bytes × Option GoError)) :
    GoResult (Option Token × Option GoError) :=
  match lib.jwtDecode tokenString with
  | .error e => .ret (none, some e)
  | .ok t =>
    match keyFunc t with
    | .panic msg => .panic msg
    | .ret (_, some e) => .ret (some t, some e)
    | .ret (key, none) =>
      match lib.jwtVerify tokenString t key with
      | some e => .ret (some t, some e)
      | none => .ret (some t, none)

/-- Wrap-around of a signed 64-bit integer. -/
def wrapInt64 (x : Int) : Int :=
  (x + 2 ^ 63) % 2 ^ 64 - 2 ^ 63

/-! ## Decoding account lists -/

/-- Decoding a JSON array into a Go `[]*User`: element `i` is decoded into the
slice's existing element `i` when there is one; `null` gives a nil pointer. -/
def unmarshalUserList (lib : Lib) :
    List Json → List (Option User) → List (Option User) × Option GoError
  | [], _ => ([], none)
  | j :: js, cur =>
    let elem : Option User × Option GoError :=
      match j with
      | .null => (none, none)
      | _ =>
        let r := lib.unmarshalUser j ((cur.head?.join).getD User.zero)
        (some r.1, r.2)
    let rest := unmarshalUserList lib js cur.tail
    (elem.1 :: rest.1, saveError elem.2 rest.2)

/-- Decoding into a Go `[]*User`. -/
def unmarshalUsers (lib : Lib) : Decoder (List (Option User))
  | .arr xs, cur => unmarshalUserList lib xs cur
  | .null, _ => ([], none)
  | _, cur => (cur, some "json: cannot unmarshal value into Go value of type []*gitkit.User")

/-- The result struct of `DownloadAccount`. -/
structure DownloadResult where
  Users : List (Option User)
  NextPageToken : String
  deriving DecidableEq, Repr

/-- The result struct of `GetAccountInfoByID` and `GetAccountInfoByEmail`. -/
structure AccountInfoResult where
  Users : List (Option User)
  deriving DecidableEq, Repr

/-- Decoding into the result struct of `DownloadAccount`. -/
def unmarshalDownloadResult (lib : Lib) : Decoder DownloadResult :=
  unmarshalStruct fun k v cur =>
    if foldEq "users" k then
      let r := unmarshalUsers lib v cur.Users
      ({ cur with Users := r.1 }, r.2)
    else if foldEq "nextPageToken" k then
      let r := unmarshalString v cur.NextPageToken
      ({ cur with NextPageToken := r.1 }, r.2)
    else (cur, none)

/-- Decoding into the result struct of the account lookups. -/
def unmarshalAccountInfoResult (lib : Lib) : Decoder AccountInfoResult :=
  unmarshalStruct fun k v cur =>
    if foldEq "users" k then
      let r := unmarshalUsers lib v cur.Users
      ({ cur with Users := r.1 }, r.2)
    else (cur, none)

/-! ## `relyingparty.go` -/

/-- The constant `relyingPartyURL`. -/
def relyingPartyURL : String :=
  "https://www.googleapis.com/identitytoolkit/v3/relyingparty"

/-- The constant `tokenEndpointURL`. -/
def tokenEndpointURL : String :=
  "https://accounts.google.com/o/oauth2/token"

/-- The struct `GitkitServerConfig`. -/
structure GitkitServerConfig where
  ClientID : String
  ServiceAccountEmail : String
  ServiceAccountPrivateKeyFile : String
  WidgetURL : String
  CookieName : String
  ServerAPIKey : String
  priKey : Bytes
  pubKeys : GoMap Bytes

/-- The struct `relyingParty`. -/
structure relyingParty where
  hc : HttpClient
  cfg : GitkitServerConfig

/-- The claim map `generateAssertion` fills in before signing. -/
def relyingParty.assertionClaims (rp : relyingParty) (now : Int) : GoMap ClaimVal :=
  let claims : GoMap ClaimVal := []
  let claims := claims.set "iss" (.str rp.cfg.ServiceAccountEmail)
  let claims := claims.set "scope" (.str "https://www.googleapis.com/auth/identitytoolkit")
  let claims := claims.set "aud" (.str tokenEndpointURL)
  let claims := claims.set "lat" (.int64 now)
  let claims := claims.set "exp" (.int64 (wrapInt64 (now + 3600)))
  claims

/-- The method `generateAssertion`. -/
def relyingParty.generateAssertion (rp : relyingParty) (lib : Lib) :
    String × Option GoError :=
  let now := lib.now
  match lib.SignedString (rp.assertionClaims now) rp.cfg.priKey with
  | .ok s => (s, none)
  | .error e => ("", some e)

/-- The method `getAccessToken`. -/
def relyingParty.getAccessToken (rp : relyingParty) (lib : Lib) :
    Trace × (String × Option GoError) :=
  match rp.generateAssertion lib with
  | (_, some err) => ([], ("", some err))
  | (assertion, none) =>
    let param : List (String × List String) :=
      [("assertion", [assertion]),
       ("grant_type", ["urn:ietf:params:oauth:grant-type:jwt-bearer"])]
    let sent : Trace := [.postForm tokenEndpointURL param]
    match rp.hc.PostForm tokenEndpointURL param with
    | .error err => (sent, ("", some err))
    | .ok resp =>
      match parseError "/oauth2/token" resp with
      | some err => (sent, ("", some err))
      | none =>
        let result : GoMap String := []
        match decodeJSON unmarshalStringMap resp.Body (.val result) with
        | (some err, _) => (sent, ("", some err))
        | (none, result) => (sent, (result.index "access_token", none))

/-- The type of the access-token step of `doInvoke`; the program's one is
`relyingParty.getAccessToken`. -/
abbrev Authenticator := relyingParty → Lib → Trace × (String × Option GoError)

/-- The method `doInvoke`. The access-token step it runs when `needServiceAccount`
holds is the argument `auth`. Returns the trace, the error and the value of `result`
afterwards. -/
def relyingParty.doInvoke {α : Type} (auth : Authenticator) (rp : relyingParty)
    (lib : Lib) (dec : Decoder α) (method api : String) (param : Option GoVal)
    (result : GoRef α) (needServiceAccount : Bool) : Trace × (Option GoError × α) :=
  let body : Option Json := param.map jsonMarshal
  match NewRequest lib method (relyingPartyURL ++ api) body with
  | .error err => ([], (some err, result.get))
  | .ok req =>
    let authed : Trace × (Request × Option GoError) :=
      if needServiceAccount then
        match auth rp lib with
        | (tr, (_, some err)) => (tr, (req, some err))
        | (tr, (accessToken, none)) =>
          (tr, ({ req with
            Header := req.Header ++ [("Authorization", "Bearer " ++ accessToken)] }, none))
      else ([], (req, none))
    match authed with
    | (tr, (_, some err)) => (tr, (some err, result.get))
    | (tr, (req, none)) =>
      match rp.hc.Do req with
      | .error err => (tr ++ [.request req], (some err, result.get))
      | .ok resp =>
        match parseError api resp with
        | some err => (tr ++ [.request req], (some err, result.get))
        | none => (tr ++ [.request req], decodeJSON dec resp.Body result)

/-- The method `invokeWithServiceAccount`. -/
def relyingParty.invokeWithServiceAccount {α : Type} (auth : Authenticator)
    (rp : relyingParty) (lib : Lib) (dec : Decoder α) (method api : String)
    (param : Option GoVal) (result : GoRef α) : Trace × (Option GoError × α) :=
  rp.doInvoke auth lib dec method api param result true

/-- The method `invoke`. -/
def relyingParty.invoke {α : Type} (auth : Authenticator) (rp : relyingParty)
    (lib : Lib) (dec : Decoder α) (method api : String) (param : Option GoVal)
    (result : GoRef α) : Trace × (Option GoError × α) :=
  rp.doInvoke auth lib dec method api param result false

/-- The parameter map `DownloadAccount` builds. -/
def downloadParam (nextPageToken : String) (maxResults : Nat) : GoMap GoVal :=
  let param : GoMap GoVal := []
  let param := param.set "maxResults" (.uint maxResults)
  let param := if nextPageToken ≠ "" then param.set "nextPageToken" (.str nextPageToken)
    else param
  param

/-- The method `DownloadAccount` of `relyingParty`. -/
def relyingParty.DownloadAccount (auth : Authenticator) (rp : relyingParty) (lib : Lib)
    (nextPageToken : String) (maxResults : Nat) :
    Trace × (List (Option User) × String × Option GoError) :=
  let param := downloadParam nextPageToken maxResults
  let result : DownloadResult := ⟨[], ""⟩
  match rp.invokeWithServiceAccount auth lib (unmarshalDownloadResult lib)
      "POST" "/downloadAccount" (some (.map param)) (.ptr result) with
  | (tr, (some err, _)) => (tr, ([], "", some err))
  | (tr, (none, result)) => (tr, (result.Users, result.NextPageToken, none))

/-- The Go expression `result.Users[0]`. -/
def indexZero (users : List (Option User)) : GoResult (Option User) :=
  match users with
  | u :: _ => .ret u
  | [] => .panic "runtime error: index out of range"

/-- The method `GetAccountInfoByID` of `relyingParty`. -/
def relyingParty.GetAccountInfoByID (auth : Authenticator) (rp : relyingParty)
    (lib : Lib) (userID : String) : Trace × GoResult (Option User × Option GoError) :=
  let result : AccountInfoResult := ⟨[]⟩
  match rp.invokeWithServiceAccount auth lib (unmarshalAccountInfoResult lib)
      "GET" "/getAccountInfo" (some (.map [("localId", .strs [userID])])) (.ptr result) with
  | (tr, (some err, _)) => (tr, .ret (none, some err))
  | (tr, (none, result)) =>
    match indexZero result.Users with
    | .ret u => (tr, .ret (u, none))
    | .panic msg => (tr, .panic msg)

/-- The method `GetAccountInfoByEmail` of `relyingParty`. -/
def relyingParty.GetAccountInfoByEmail (auth : Authenticator) (rp : relyingParty)
    (lib : Lib) (email : String) : Trace × GoResult (Option User × Option GoError) :=
  let result : AccountInfoResult := ⟨[]⟩
  match rp.invokeWithServiceAccount auth lib (unmarshalAccountInfoResult lib)
      "GET" "/getAccountInfo" (some (.map [("email", .strs [email])])) (.ptr result) with
  | (tr, (some err, _)) => (tr, .ret (none, some err))
  | (tr, (none, result)) =>
    match indexZero result.Users with
    | .ret u => (tr, .ret (u, none))
    | .panic msg => (tr, .panic msg)

/-- The method `GetPublicKeys` of `relyingParty`. -/
def relyingParty.GetPublicKeys (auth : Authenticator) (rp : relyingParty) (lib : Lib) :
    Trace × (GoMap String × Option GoError) :=
  let ret : GoMap String := []
  if rp.cfg.ServerAPIKey ≠ "" then
    let api := "/publicKeys?key=" ++ rp.cfg.ServerAPIKey
    match rp.invoke auth lib unmarshalStringMap "GET" api none (.ptr ret) with
    | (tr, (err, ret)) => (tr, (ret, err))
  else
    match rp.invokeWithServiceAccount auth lib unmarshalStringMap
        "GET" "/publicKeys" none (.ptr ret) with
    | (tr, (err, ret)) => (tr, (ret, err))

/-! ## `client.go` -/

/-- The struct `Client`. -/
structure Client where
  cfg : GitkitServerConfig
  rp : relyingParty

/-- The method `GetAccountInfoByID` of `Client`. -/
def Client.GetAccountInfoByID (auth : Authenticator) (c : Client) (lib : Lib)
    (userID : String) : Trace × GoResult (Option User × Option GoError) :=
  c.rp.GetAccountInfoByID auth lib userID

/-- The method `DownloadAccount` of `Client`. -/
def Client.DownloadAccount (auth : Authenticator) (c : Client) (lib : Lib)
    (nextPageToken : String) (maxResults : Nat) :
    Trace × (List (Option User) × String × Option GoError) :=
  c.rp.DownloadAccount auth lib nextPageToken maxResults

/-- The method `GetPublicKeys` of `Client`. -/
def Client.GetPublicKeys (auth : Authenticator) (c : Client) (lib : Lib) :
    Trace × (GoMap String × Option GoError) :=
  c.rp.GetPublicKeys auth lib

/-- The key function `ValidateToken` passes to `jwt.Parse`: the type assertion
`t.Header["kid"].(string)`, then the lookup in `pubKeys`. -/
def Client.keyFunc (c : Client) (t : Token) : GoResult (Bytes × Option GoError) :=
  match t.Header.lookup "kid" with
  | some (.str kid) =>
    match c.cfg.pubKeys.lookup kid with
    | some key => .ret (key, none)
    | none => .ret ([], some ("gitkit: no pub key with kid=" ++ kid))
  | _ => .panic "interface conversion: interface \x7b\x7d is not string"

/-- The method `ValidateToken`. -/
def Client.ValidateToken (auth : Authenticator) (c : Client) (lib : Lib)
    (token : String) : Trace × GoResult (Option User × Option GoError) :=
  match jwtParse lib token c.keyFunc with
  | .panic msg => ([], .panic msg)
  | .ret (_, some err) => ([], .ret (none, some err))
  | .ret (none, none) => ([], .panic "runtime error: nil pointer dereference")
  | .ret (some t, none) =>
    match t.Claims.lookup "user_id" with
    | some (.str userID) => c.GetAccountInfoByID auth lib userID
    | _ => ([], .panic "interface conversion: interface \x7b\x7d is not string")

/-! ## Concrete inputs used to instantiate the theorems -/

/-- A transport answering every API request with `api` and every token request with
`token`. -/
def stubHc (token api : Except GoError Response) : HttpClient :=
  ⟨fun _ => api, fun _ _ => token⟩

/-- A decoder of accounts that reads the member localId only. -/
def stubUnmarshalUser : Decoder User
  | .obj kvs, cur =>
    match kvs.lookup "localId" with
    | some (.str s) => ({ cur with LocalID := s }, none)
    | _ => (cur, none)
  | .null, cur => (cur, none)
  | _, cur => (cur, some "json: cannot unmarshal value into Go value of type gitkit.User")

/-- A token library knowing four token strings; a signature verifies under the key
with bytes 1, 2, 3 only. -/
def stubJwtDecode (s : String) : Except GoError Token :=
  if s = "tok.unknown" then
    .ok ⟨[("alg", .str "RS256"), ("kid", .str "k9")], [("user_id", .str "u1")]⟩
  else if s = "tok.nokid" then
    .ok ⟨[("alg", .str "RS256")], [("user_id", .str "u1")]⟩
  else if s = "tok.nouid" then
    .ok ⟨[("alg", .str "RS256"), ("kid", .str "k1")], [("email", .str "a@b.c")]⟩
  else if s = "tok.good" then
    .ok ⟨[("alg", .str "RS256"), ("kid", .str "k1")], [("user_id", .str "u1")]⟩
  else .error "token contains an invalid number of segments"

/-- Library behaviour for the concrete inputs: the clock reads 1000, every URL parses,
signing yields a fixed string. -/
def stubLib : Lib where
  now := 1000
  urlError := fun _ => none
  SignedString := fun _ _ => .ok "signed.assertion"
  jwtDecode := stubJwtDecode
  jwtVerify := fun _ _ key => if key = [1, 2, 3] then none else some "crypto/rsa: verification error"
  unmarshalUser := stubUnmarshalUser

/-- A configuration with the given server API key and one registry entry, k1. -/
def stubCfg (apiKey : String) : GitkitServerConfig where
  ClientID := "client"
  ServiceAccountEmail := "svc@example.com"
  ServiceAccountPrivateKeyFile := "key.pem"
  WidgetURL := "/gitkit"
  CookieName := "gtoken"
  ServerAPIKey := apiKey
  priKey := [7]
  pubKeys := [("k1", [1, 2, 3])]

/-- A relying party over `stubHc`. -/
def stubRp (apiKey : String) (token api : Except GoError Response) : relyingParty :=
  ⟨stubHc token api, stubCfg apiKey⟩

/-- A client over `stubRp`. -/
def stubClient (apiKey : String) (token api : Except GoError Response) : Client :=
  ⟨stubCfg apiKey, stubRp apiKey token api⟩

/-- An access-token step that sends one token request and obtains the token tok123. -/
def stubAuth : Authenticator :=
  fun _ _ => ([.postForm tokenEndpointURL []], ("tok123", none))

/-- An access-token step that sends one token request and fails. -/
def stubAuthFail : Authenticator :=
  fun _ _ => ([.postForm tokenEndpointURL []], ("", some "gitkit: /oauth2/token 400 invalid_grant"))

/-- The form `getAccessToken` posts for a given assertion. -/
def tokenForm (assertion : String) : List (String × List String) :=
  [("assertion", [assertion]),
   ("grant_type", ["urn:ietf:params:oauth:grant-type:jwt-bearer"])]

/-- A success answer of the token endpoint carrying the access token ya29.abc. -/
def tokenOk : Response :=
  ⟨200, "200 OK", some (.obj [("access_token", .str "ya29.abc"), ("expires_in", .num "3600")])⟩

/-- The request `doInvoke` sends with an access token. -/
def bearerRequest (method api : String) (param : Option GoVal) (accessToken : String) :
    Request :=
  ⟨method, relyingPartyURL ++ api, [("Authorization", "Bearer " ++ accessToken)],
    param.map jsonMarshal⟩

/-- The request `doInvoke` sends without an access token. -/
def plainRequest (method api : String) (param : Option GoVal) : Request :=
  ⟨method, relyingPartyURL ++ api, [], param.map jsonMarshal⟩

/-- An answer of getAccountInfo with one account, u1. -/
def oneUser : Response :=
  ⟨200, "200 OK", some (.obj [("users", .arr [.obj [("localId", .str "u1")]])])⟩

/-- An answer of getAccountInfo without accounts. -/
def noUser : Response :=
  ⟨200, "200 OK", some (.obj [("kind", .str "identitytoolkit#GetAccountInfoResponse")])⟩

/-- An answer of downloadAccount with one account and the next page token p2. -/
def onePage : Response :=
  ⟨200, "200 OK", some (.obj [("users", .arr [.obj [("localId", .str "u1")]]),
    ("nextPageToken", .str "p2")])⟩

/-- An answer of publicKeys with one key. -/
def keysOk : Response :=
  ⟨200, "200 OK", some (.obj [("k1", .str "-----BEGIN CERTIFICATE-----")])⟩

/-! ## Classification of responses: `parseError` -/

/-- The text `fmt.Errorf("gitkit: %s %d %s", api, code, msg)` produces. -/
def errorText (api : String) (code : Int) (msg : String) : String :=
  "gitkit: " ++ api ++ " " ++ toString code ++ " " ++ msg

/-- The JSON document with the one member error, itself with the one member message. -/
def envelope (m : String) : Json :=
  .obj [("error", .obj [("message", .str m)])]

theorem decodeJSON_envelope (m : String) :
    decodeJSON unmarshalErrResp (some (envelope m)) (.ptr ⟨⟨""⟩⟩) = (none, ⟨⟨m⟩⟩) := by
  rfl

/-- C4: for a status code from 400 to 499 `parseError` returns the error text built from
the path, the code and a message; the message is the decoded error.message field when
the body decodes into the envelope, and the status line when the body does not
decode. -/
theorem parseError_client_error (api : String) (resp : Response)
    (h4 : 400 ≤ resp.StatusCode) (h5 : resp.StatusCode < 500) :
    (∀ m, resp.Body = some (envelope m) →
        parseError api resp = some (errorText api resp.StatusCode m)) ∧
    (∀ e, decodeJSON unmarshalErrResp resp.Body (.ptr ⟨⟨""⟩⟩) = (none, e) →
        parseError api resp = some (errorText api resp.StatusCode e.Error.Message)) ∧
    (∀ err e, decodeJSON unmarshalErrResp resp.Body (.ptr ⟨⟨""⟩⟩) = (some err, e) →
        parseError api resp = some (errorText api resp.StatusCode resp.Status)) := by
  have hc : resp.StatusCode ≥ 400 ∧ resp.StatusCode < 500 := ⟨h4, h5⟩
  refine ⟨?_, ?_, ?_⟩
  · intro m hm
    simp only [parseError, if_pos hc, hm, decodeJSON_envelope, errorText]
  · intro e he
    simp only [parseError, if_pos hc, he, errorText]
  · intro err e he
    simp only [parseError, if_pos hc, he, errorText]

/-- Witness of C4: status 401 with the body carrying the message bad token. -/
theorem parseError_client_error_witness :
    parseError "/getAccountInfo" ⟨401, "401 Unauthorized", some (envelope "bad token")⟩
      = some "gitkit: /getAccountInfo 401 bad token" :=
  (parseError_client_error "/getAccountInfo"
    ⟨401, "401 Unauthorized", some (envelope "bad token")⟩
    (by decide) (by decide)).1 "bad token" rfl

/-- C5: for a status code of 500 or more `parseError` returns the error text built from
the path, the code and the status line, and the body plays no part in it. -/
theorem parseError_server_error (api : String) (resp : Response)
    (h5 : 500 ≤ resp.StatusCode) :
    parseError api resp = some (errorText api resp.StatusCode resp.Status) ∧
    ∀ b : Body, parseError api { resp with Body := b } = parseError api resp := by
  have h1 : ¬ (resp.StatusCode ≥ 400 ∧ resp.StatusCode < 500) := by omega
  have h2 : resp.StatusCode ≥ 500 := h5
  refine ⟨?_, ?_⟩
  · simp only [parseError, if_neg h1, if_pos h2, errorText]
  · intro b
    simp only [parseError, if_neg h1, if_pos h2]

/-- Witness of C5: status 500 with a body that is not JSON. -/
theorem parseError_server_error_witness :
    parseError "/uploadAccount" ⟨500, "500 Internal Server Error", none⟩
      = some "gitkit: /uploadAccount 500 500 Internal Server Error" :=
  (parseError_server_error "/uploadAccount" ⟨500, "500 Internal Server Error", none⟩
    (by decide)).1

/-! ## The service-account assertion and the access token -/

theorem parseError_of_lt (api : String) (resp : Response) (h : resp.StatusCode < 400) :
    parseError api resp = none := by
  have h1 : ¬ (resp.StatusCode ≥ 400 ∧ resp.StatusCode < 500) := by omega
  have h2 : ¬ resp.StatusCode ≥ 500 := by omega
  simp only [parseError, if_neg h1, if_neg h2]

theorem decodeJSON_val_error {α : Type} (dec : Decoder α) (r : Body) (v : α) :
    ∃ e, (decodeJSON dec r (.val v)).1 = some e := by
  cases r with
  | none => exact ⟨_, rfl⟩
  | some j => exact ⟨_, rfl⟩

/-- In no environment does `getAccessToken` return a nil error. -/
theorem getAccessToken_always_errors (rp : relyingParty) (lib : Lib) :
    ∃ e, (rp.getAccessToken lib).2 = ("", some e) := by
  unfold relyingParty.getAccessToken
  split
  · exact ⟨_, rfl⟩
  · simp only []
    split
    · exact ⟨_, rfl⟩
    · split
      · exact ⟨_, rfl⟩
      · split
        · exact ⟨_, rfl⟩
        · next result h =>
          obtain ⟨e, he⟩ := decodeJSON_val_error unmarshalStringMap _ ([] : GoMap String)
          rw [h] at he
          exact absurd he (by simp)

/-- C6 (the code departs from the claim): on a token-endpoint answer with a status below
400 whose body is an object with the string member access_token, `getAccessToken`
returns the empty token and the error of `Decode` for a target that is not a pointer,
after the one token request. -/
theorem getAccessToken_success_response (rp : relyingParty) (lib : Lib)
    (assertion : String) (resp : Response) (kvs : List (String × Json)) (t : String)
    (hsign : lib.SignedString (rp.assertionClaims lib.now) rp.cfg.priKey = .ok assertion)
    (hpost : rp.hc.PostForm tokenEndpointURL (tokenForm assertion) = .ok resp)
    (hstatus : resp.StatusCode < 400)
    (hbody : resp.Body = some (.obj kvs))
    (_htok : kvs.lookup "access_token" = some (.str t)) :
    rp.getAccessToken lib
      = ([.postForm tokenEndpointURL (tokenForm assertion)],
         ("", some "json: Unmarshal(non-pointer)")) := by
  unfold tokenForm at hpost
  simp only [relyingParty.getAccessToken, relyingParty.generateAssertion, hsign, hpost,
    parseError_of_lt _ _ hstatus, hbody, decodeJSON, tokenForm]

/-- Witness of C6: the answer 200 with the access token ya29.abc in its body. -/
theorem getAccessToken_success_response_witness :
    (stubRp "" (.ok tokenOk) (.ok tokenOk)).getAccessToken stubLib
      = ([.postForm tokenEndpointURL (tokenForm "signed.assertion")],
         ("", some "json: Unmarshal(non-pointer)")) :=
  getAccessToken_success_response (stubRp "" (.ok tokenOk) (.ok tokenOk)) stubLib
    "signed.assertion" tokenOk
    [("access_token", .str "ya29.abc"), ("expires_in", .num "3600")] "ya29.abc"
    rfl rfl (by decide) rfl rfl

/-- C7 (the code departs from the claim): the claim map of the assertion has the five
members aud, exp, iss, lat and scope; the issue time is stored under lat and there is no
member iat. -/
theorem assertionClaims_members (rp : relyingParty) (now : Int) :
    rp.assertionClaims now
      = [("aud", .str "https://accounts.google.com/o/oauth2/token"),
         ("exp", .int64 (wrapInt64 (now + 3600))),
         ("iss", .str rp.cfg.ServiceAccountEmail),
         ("lat", .int64 now),
         ("scope", .str "https://www.googleapis.com/auth/identitytoolkit")] ∧
    (rp.assertionClaims now).lookup "iat" = none ∧
    (rp.assertionClaims now).lookup "lat" = some (.int64 now) := by
  refine ⟨rfl, rfl, rfl⟩

/-! ## The request pipeline: `doInvoke` -/

theorem doInvoke_bearer {α : Type} (auth : Authenticator) (rp : relyingParty) (lib : Lib)
    (dec : Decoder α) (method api : String) (param : Option GoVal) (result : GoRef α)
    (tr : Trace) (tok : String) (resp : Response)
    (hurl : lib.urlError (relyingPartyURL ++ api) = none)
    (hauth : auth rp lib = (tr, (tok, none)))
    (hdo : rp.hc.Do (bearerRequest method api param tok) = .ok resp)
    (hstatus : resp.StatusCode < 400) :
    rp.doInvoke auth lib dec method api param result true
      = (tr ++ [.request (bearerRequest method api param tok)],
         decodeJSON dec resp.Body result) := by
  unfold bearerRequest at hdo
  simp only [relyingParty.doInvoke, NewRequest, hurl, hauth, if_true, List.nil_append,
    hdo, parseError_of_lt _ _ hstatus, bearerRequest]

theorem doInvoke_auth_error {α : Type} (auth : Authenticator) (rp : relyingParty)
    (lib : Lib) (dec : Decoder α) (method api : String) (param : Option GoVal)
    (result : GoRef α) (tr : Trace) (tok : String) (err : GoError)
    (hurl : lib.urlError (relyingPartyURL ++ api) = none)
    (hauth : auth rp lib = (tr, (tok, some err))) :
    rp.doInvoke auth lib dec method api param result true
      = (tr, (some err, result.get)) := by
  simp only [relyingParty.doInvoke, NewRequest, hurl, hauth, if_true]

theorem doInvoke_plain {α : Type} (auth : Authenticator) (rp : relyingParty) (lib : Lib)
    (dec : Decoder α) (method api : String) (param : Option GoVal) (result : GoRef α)
    (hurl : lib.urlError (relyingPartyURL ++ api) = none) :
    rp.doInvoke auth lib dec method api param result false
      = match rp.hc.Do (plainRequest method api param) with
        | .error err => ([.request (plainRequest method api param)], (some err, result.get))
        | .ok resp =>
          match parseError api resp with
          | some err => ([.request (plainRequest method api param)], (some err, result.get))
          | none => ([.request (plainRequest method api param)],
              decodeJSON dec resp.Body result) := by
  simp only [relyingParty.doInvoke, NewRequest, hurl, plainRequest, List.nil_append]
  rfl

/-! ## Token validation -/

theorem lookup_eq_none_of_not_mem {V : Type} (l : List (String × V)) (k : String)
    (h : ∀ v, (k, v) ∉ l) : l.lookup k = none := by
  induction l with
  | nil => rfl
  | cons p rest ih =>
    obtain ⟨k', v'⟩ := p
    have hne : k ≠ k' := by
      intro heq
      exact h v' (by simp [heq])
    have hb : (k == k') = false := by simpa using hne
    simp only [List.lookup, hb]
    exact ih (fun v hv => h v (List.mem_cons_of_mem _ hv))

/-- C1: a token whose header kid is a string absent from the registry makes the key
function return the error naming that kid, and `ValidateToken` return no user and that
error, with no request sent; the key function yields a key only for a kid of the
registry, and then the bytes stored for it. -/
theorem validateToken_unknown_kid (auth : Authenticator) (c : Client) (lib : Lib)
    (token : String) (t : Token) (kid : String)
    (hdec : lib.jwtDecode token = .ok t)
    (hkid : t.Header.lookup "kid" = some (.str kid))
    (habs : ∀ key, (kid, key) ∉ c.cfg.pubKeys) :
    c.keyFunc t = .ret ([], some ("gitkit: no pub key with kid=" ++ kid)) ∧
    c.ValidateToken auth lib token
      = ([], .ret (none, some ("gitkit: no pub key with kid=" ++ kid))) ∧
    ∀ (t' : Token) (key : Bytes), c.keyFunc t' = .ret (key, none) →
      ∃ k, t'.Header.lookup "kid" = some (.str k) ∧ c.cfg.pubKeys.lookup k = some key := by
  have hnone := lookup_eq_none_of_not_mem c.cfg.pubKeys kid habs
  have hkf : c.keyFunc t = .ret ([], some ("gitkit: no pub key with kid=" ++ kid)) := by
    simp only [Client.keyFunc, hkid, hnone]
  refine ⟨hkf, ?_, ?_⟩
  · simp only [Client.ValidateToken, jwtParse, hdec, hkf]
  · intro t' key h
    unfold Client.keyFunc at h
    split at h
    · next k hk =>
      split at h
      · next key' hkey =>
        injection h with h1
        injection h1 with h2 _
        exact ⟨k, hk, by rw [hkey, h2]⟩
      · injection h with h1
        injection h1 with _ h3
        exact absurd h3 (by simp)
    · exact absurd h (by simp)

/-- Witness of C1: the token with kid k9 against a registry holding k1 only. -/
theorem validateToken_unknown_kid_witness :
    (stubClient "" (.ok tokenOk) (.ok oneUser)).ValidateToken
        relyingParty.getAccessToken stubLib "tok.unknown"
      = ([], .ret (none, some "gitkit: no pub key with kid=k9")) :=
  (validateToken_unknown_kid relyingParty.getAccessToken
    (stubClient "" (.ok tokenOk) (.ok oneUser)) stubLib "tok.unknown"
    ⟨[("alg", .str "RS256"), ("kid", .str "k9")], [("user_id", .str "u1")]⟩ "k9"
    rfl rfl (by intro key h; simp [stubClient, stubCfg] at h)).2.1

/-- C2 (the code departs from the claim): when the header of a decoded token has no
string kid, `ValidateToken` aborts in the key function; when the token verifies under a
registry key and its claims have no string user_id, `ValidateToken` aborts after
verification. Neither case returns an error value. -/
theorem validateToken_panics (auth : Authenticator) (c : Client) (lib : Lib)
    (token : String) (t : Token) (hdec : lib.jwtDecode token = .ok t) :
    ((∀ kid, t.Header.lookup "kid" ≠ some (.str kid)) →
      c.ValidateToken auth lib token
        = ([], .panic "interface conversion: interface \x7b\x7d is not string")) ∧
    (∀ kid key, t.Header.lookup "kid" = some (.str kid) →
      c.cfg.pubKeys.lookup kid = some key →
      lib.jwtVerify token t key = none →
      (∀ s, t.Claims.lookup "user_id" ≠ some (.str s)) →
      c.ValidateToken auth lib token
        = ([], .panic "interface conversion: interface \x7b\x7d is not string")) := by
  refine ⟨?_, ?_⟩
  · intro hno
    have hkf : c.keyFunc t = .panic "interface conversion: interface \x7b\x7d is not string" := by
      unfold Client.keyFunc
      split
      · next k hk => exact absurd hk (hno k)
      · rfl
    simp only [Client.ValidateToken, jwtParse, hdec, hkf]
  · intro kid key hkid hkey hver hno
    have hkf : c.keyFunc t = .ret (key, none) := by
      simp only [Client.keyFunc, hkid, hkey]
    simp only [Client.ValidateToken, jwtParse, hdec, hkf, hver]

/-- Witness of C2: a token without kid, and a verified token without user_id. -/
theorem validateToken_panics_witness :
    (stubClient "" (.ok tokenOk) (.ok oneUser)).ValidateToken
        relyingParty.getAccessToken stubLib "tok.nokid"
      = ([], .panic "interface conversion: interface \x7b\x7d is not string") ∧
    (stubClient "" (.ok tokenOk) (.ok oneUser)).ValidateToken
        relyingParty.getAccessToken stubLib "tok.nouid"
      = ([], .panic "interface conversion: interface \x7b\x7d is not string") :=
  ⟨(validateToken_panics relyingParty.getAccessToken
      (stubClient "" (.ok tokenOk) (.ok oneUser)) stubLib "tok.nokid"
      ⟨[("alg", .str "RS256")], [("user_id", .str "u1")]⟩ rfl).1
      (by intro kid h; simp [List.lookup] at h),
   (validateToken_panics relyingParty.getAccessToken
      (stubClient "" (.ok tokenOk) (.ok oneUser)) stubLib "tok.nouid"
      ⟨[("alg", .str "RS256"), ("kid", .str "k1")], [("email", .str "a@b.c")]⟩ rfl).2
      "k1" [1, 2, 3] rfl rfl rfl (by intro s h; simp [List.lookup] at h)⟩

/-- C3 as stated fails: the same verified token and the same registry give different
results under two transports, none of them the subject id, and a request is sent. -/
theorem validateToken_not_determined_by_token :
    (stubClient "" (.error "dial tcp: connection refused") (.ok oneUser)).ValidateToken
        relyingParty.getAccessToken stubLib "tok.good"
      = ([.postForm tokenEndpointURL (tokenForm "signed.assertion")],
         .ret (none, some "dial tcp: connection refused")) ∧
    (stubClient "" (.error "net/http: request canceled") (.ok oneUser)).ValidateToken
        relyingParty.getAccessToken stubLib "tok.good"
      = ([.postForm tokenEndpointURL (tokenForm "signed.assertion")],
         .ret (none, some "net/http: request canceled")) ∧
    (stubClient "" (.error "dial tcp: connection refused") (.ok oneUser)).ValidateToken
        relyingParty.getAccessToken stubLib "tok.good"
      ≠ (stubClient "" (.error "net/http: request canceled") (.ok oneUser)).ValidateToken
        relyingParty.getAccessToken stubLib "tok.good" := by
  have hA : (stubClient "" (.error "dial tcp: connection refused") (.ok oneUser)).ValidateToken
        relyingParty.getAccessToken stubLib "tok.good"
      = ([.postForm tokenEndpointURL (tokenForm "signed.assertion")],
         .ret (none, some "dial tcp: connection refused")) := rfl
  have hB : (stubClient "" (.error "net/http: request canceled") (.ok oneUser)).ValidateToken
        relyingParty.getAccessToken stubLib "tok.good"
      = ([.postForm tokenEndpointURL (tokenForm "signed.assertion")],
         .ret (none, some "net/http: request canceled")) := rfl
  refine ⟨hA, hB, ?_⟩
  rw [hA, hB]
  intro h
  have h2 := congrArg Prod.snd h
  simp only [GoResult.ret.injEq, Prod.mk.injEq, Option.some.injEq, true_and] at h2
  exact absurd h2 (by decide)

/-- C3, amended: for a token that verifies under the registry key of its kid and whose
claims carry the subject id s, `ValidateToken` is the account lookup
`GetAccountInfoByID` of s: the same requests and the same result. -/
theorem validateToken_verified (auth : Authenticator) (c : Client) (lib : Lib)
    (token : String) (t : Token) (kid : String) (key : Bytes) (s : String)
    (hdec : lib.jwtDecode token = .ok t)
    (hkid : t.Header.lookup "kid" = some (.str kid))
    (hkey : c.cfg.pubKeys.lookup kid = some key)
    (hver : lib.jwtVerify token t key = none)
    (hsub : t.Claims.lookup "user_id" = some (.str s)) :
    c.ValidateToken auth lib token = c.rp.GetAccountInfoByID auth lib s := by
  have hkf : c.keyFunc t = .ret (key, none) := by
    simp only [Client.keyFunc, hkid, hkey]
  simp only [Client.ValidateToken, jwtParse, hdec, hkf, hver, hsub,
    Client.GetAccountInfoByID]

/-- Witness of C3, amended: the verified token of u1, with an access-token step that
succeeds and a service that reports the account u1. -/
theorem validateToken_verified_witness :
    (stubClient "" (.ok tokenOk) (.ok oneUser)).ValidateToken stubAuth stubLib "tok.good"
      = ([.postForm tokenEndpointURL [],
          .request (bearerRequest "GET" "/getAccountInfo"
            (some (.map [("localId", .strs ["u1"])])) "tok123")],
         .ret (some { User.zero with LocalID := "u1" }, none)) :=
  (validateToken_verified stubAuth (stubClient "" (.ok tokenOk) (.ok oneUser)) stubLib
    "tok.good" ⟨[("alg", .str "RS256"), ("kid", .str "k1")], [("user_id", .str "u1")]⟩
    "k1" [1, 2, 3] "u1" rfl rfl rfl rfl rfl).trans rfl

/-! ## The account operations -/

theorem invoke_trace {α : Type} (auth : Authenticator) (rp : relyingParty) (lib : Lib)
    (dec : Decoder α) (method api : String) (param : Option GoVal) (result : GoRef α)
    (hurl : lib.urlError (relyingPartyURL ++ api) = none) :
    (rp.invoke auth lib dec method api param result).1
      = [.request (plainRequest method api param)] := by
  rw [relyingParty.invoke, doInvoke_plain auth rp lib dec method api param result hurl]
  cases rp.hc.Do (plainRequest method api param) with
  | error e => rfl
  | ok resp =>
    simp only []
    cases parseError api resp <;> rfl

theorem invoke_auth_irrelevant {α : Type} (auth auth' : Authenticator)
    (rp : relyingParty) (lib : Lib) (dec : Decoder α) (method api : String)
    (param : Option GoVal) (result : GoRef α) :
    rp.invoke auth' lib dec method api param result
      = rp.invoke auth lib dec method api param result := by
  simp only [relyingParty.invoke, relyingParty.doInvoke, Bool.false_eq_true, if_false]

/-- C8 as stated fails: with no server API key and a token endpoint that cannot be
reached, `GetPublicKeys` sends the token request and no GET. -/
theorem getPublicKeys_without_get :
    (stubRp "" (.error "dial tcp: connection refused") (.ok keysOk)).GetPublicKeys
        relyingParty.getAccessToken stubLib
      = ([.postForm tokenEndpointURL (tokenForm "signed.assertion")],
         ([], some "dial tcp: connection refused")) := by
  rfl

/-- C8, amended: with a server API key, `GetPublicKeys` sends exactly one request, a GET
of the key path without body and without header, and the access-token step plays no
part; without one, it runs the access-token step first, sends after it exactly one GET
of the plain path without body and with the bearer header when the step yields a token,
and sends no GET and returns the step's error when it fails. -/
theorem getPublicKeys_credential_path (auth : Authenticator) (rp : relyingParty)
    (lib : Lib) :
    (rp.cfg.ServerAPIKey ≠ "" →
      lib.urlError (relyingPartyURL ++ ("/publicKeys?key=" ++ rp.cfg.ServerAPIKey)) = none →
      (rp.GetPublicKeys auth lib).1
        = [.request ⟨"GET", relyingPartyURL ++ ("/publicKeys?key=" ++ rp.cfg.ServerAPIKey),
            [], none⟩] ∧
      ∀ auth' : Authenticator, rp.GetPublicKeys auth' lib = rp.GetPublicKeys auth lib) ∧
    (rp.cfg.ServerAPIKey = "" →
      lib.urlError (relyingPartyURL ++ "/publicKeys") = none →
      (∀ tr tok resp, auth rp lib = (tr, (tok, none)) →
        rp.hc.Do ⟨"GET", relyingPartyURL ++ "/publicKeys",
          [("Authorization", "Bearer " ++ tok)], none⟩ = .ok resp →
        (rp.GetPublicKeys auth lib).1
          = tr ++ [.request ⟨"GET", relyingPartyURL ++ "/publicKeys",
              [("Authorization", "Bearer " ++ tok)], none⟩]) ∧
      (∀ tr tok e, auth rp lib = (tr, (tok, none)) →
        rp.hc.Do ⟨"GET", relyingPartyURL ++ "/publicKeys",
          [("Authorization", "Bearer " ++ tok)], none⟩ = .error e →
        rp.GetPublicKeys auth lib
          = (tr ++ [.request ⟨"GET", relyingPartyURL ++ "/publicKeys",
              [("Authorization", "Bearer " ++ tok)], none⟩], ([], some e))) ∧
      (∀ tr tok err, auth rp lib = (tr, (tok, some err)) →
        rp.GetPublicKeys auth lib = (tr, ([], some err)))) := by
  refine ⟨?_, ?_⟩
  · intro hkey hurl
    refine ⟨?_, ?_⟩
    · simp only [relyingParty.GetPublicKeys, if_pos hkey]
      exact invoke_trace auth rp lib unmarshalStringMap "GET" _ none _ hurl
    · intro auth'
      simp only [relyingParty.GetPublicKeys, if_pos hkey,
        invoke_auth_irrelevant auth auth']
  · intro hkey hurl
    have hk : ¬ rp.cfg.ServerAPIKey ≠ "" := by simp [hkey]
    refine ⟨?_, ?_, ?_⟩
    · intro tr tok resp hauth hdo
      simp only [relyingParty.GetPublicKeys, if_neg hk,
        relyingParty.invokeWithServiceAccount, relyingParty.doInvoke, NewRequest, hurl,
        hauth, if_true, List.nil_append, Option.map_none', hdo]
      cases parseError "/publicKeys" resp <;> rfl
    · intro tr tok e hauth hdo
      simp only [relyingParty.GetPublicKeys, if_neg hk,
        relyingParty.invokeWithServiceAccount, relyingParty.doInvoke, NewRequest, hurl,
        hauth, if_true, List.nil_append, Option.map_none', hdo, GoRef.get]
    · intro tr tok err hauth
      simp only [relyingParty.GetPublicKeys, if_neg hk,
        relyingParty.invokeWithServiceAccount,
        doInvoke_auth_error auth rp lib _ _ _ _ _ tr tok err hurl hauth, GoRef.get]

/-- Witness of C8, amended: the configuration with the API key abc, and the
configuration without API key under an access-token step yielding tok123. -/
theorem getPublicKeys_credential_path_witness :
    ((stubRp "abc" (.ok tokenOk) (.ok keysOk)).GetPublicKeys stubAuth stubLib).1
      = [.request ⟨"GET", relyingPartyURL ++ "/publicKeys?key=abc", [], none⟩] ∧
    ((stubRp "" (.ok tokenOk) (.ok keysOk)).GetPublicKeys stubAuth stubLib).1
      = [.postForm tokenEndpointURL [],
         .request ⟨"GET", relyingPartyURL ++ "/publicKeys",
           [("Authorization", "Bearer tok123")], none⟩] ∧
    (stubRp "" (.ok tokenOk) (.ok keysOk)).GetPublicKeys stubAuthFail stubLib
      = ([.postForm tokenEndpointURL []],
         ([], some "gitkit: /oauth2/token 400 invalid_grant")) :=
  ⟨((getPublicKeys_credential_path stubAuth (stubRp "abc" (.ok tokenOk) (.ok keysOk))
      stubLib).1 (by decide) rfl).1,
   ((getPublicKeys_credential_path stubAuth (stubRp "" (.ok tokenOk) (.ok keysOk))
      stubLib).2 rfl rfl).1 [.postForm tokenEndpointURL []] "tok123" keysOk rfl rfl,
   ((getPublicKeys_credential_path stubAuthFail (stubRp "" (.ok tokenOk) (.ok keysOk))
      stubLib).2 rfl rfl).2.2 [.postForm tokenEndpointURL []] ""
      "gitkit: /oauth2/token 400 invalid_grant" rfl⟩

/-- C9 as stated fails: for the empty page token the parameter map of
`DownloadAccount` has the member maxResults only, and no member nextPageToken. -/
theorem downloadParam_empty_token :
    downloadParam "" 50 = [("maxResults", .uint 50)] ∧
    (downloadParam "" 50).lookup "nextPageToken" = none ∧
    jsonMarshal (.map (downloadParam "" 50)) = .obj [("maxResults", .num "50")] := by
  refine ⟨rfl, rfl, rfl⟩

theorem downloadParam_nonempty (p : String) (m : Nat) (hp : p ≠ "") :
    downloadParam p m = [("maxResults", .uint m), ("nextPageToken", .str p)] := by
  simp only [downloadParam, if_pos hp]
  rfl

/-- C9, amended: the payload of `DownloadAccount` carries maxResults = m, and
nextPageToken = p when p is not empty (no such member when p is empty); when the
access-token step yields a token and the service answers with a status below 400 and a
body decoding to users U and next page token q, the result is (U, q, nil) after the
POST of that payload; when the invocation fails with an error, the result is
(nil, "", err). -/
theorem downloadAccount_forwarding (auth : Authenticator) (rp : relyingParty) (lib : Lib)
    (p : String) (m : Nat) :
    (p ≠ "" → jsonMarshal (.map (downloadParam p m))
        = .obj [("maxResults", .num (toString m)), ("nextPageToken", .str p)]) ∧
    (p = "" → jsonMarshal (.map (downloadParam p m))
        = .obj [("maxResults", .num (toString m))]) ∧
    (∀ tr tok resp users q,
      lib.urlError (relyingPartyURL ++ "/downloadAccount") = none →
      auth rp lib = (tr, (tok, none)) →
      rp.hc.Do ⟨"POST", relyingPartyURL ++ "/downloadAccount",
        [("Authorization", "Bearer " ++ tok)],
        some (jsonMarshal (.map (downloadParam p m)))⟩ = .ok resp →
      resp.StatusCode < 400 →
      decodeJSON (unmarshalDownloadResult lib) resp.Body (.ptr ⟨[], ""⟩)
        = (none, ⟨users, q⟩) →
      rp.DownloadAccount auth lib p m
        = (tr ++ [.request ⟨"POST", relyingPartyURL ++ "/downloadAccount",
            [("Authorization", "Bearer " ++ tok)],
            some (jsonMarshal (.map (downloadParam p m)))⟩], (users, q, none))) ∧
    (∀ tr err r,
      rp.invokeWithServiceAccount auth lib (unmarshalDownloadResult lib) "POST"
        "/downloadAccount" (some (.map (downloadParam p m))) (.ptr ⟨[], ""⟩)
        = (tr, (some err, r)) →
      rp.DownloadAccount auth lib p m = (tr, ([], "", some err))) := by
  refine ⟨?_, ?_, ?_, ?_⟩
  · intro hp
    rw [downloadParam_nonempty p m hp]
    rfl
  · intro hp
    subst hp
    rfl
  · intro tr tok resp users q hurl hauth hdo hstatus hdec
    have h := doInvoke_bearer auth rp lib (unmarshalDownloadResult lib) "POST"
      "/downloadAccount" (some (.map (downloadParam p m))) (.ptr ⟨[], ""⟩) tr tok resp
      hurl hauth hdo hstatus
    simp only [relyingParty.DownloadAccount, relyingParty.invokeWithServiceAccount, h, hdec]
    rfl
  · intro tr err r h
    simp only [relyingParty.DownloadAccount, h]

/-- Witness of C9, amended: page token p1 and 50 results, a service answering with one
account and the next page token p2; and an access-token step that fails. -/
theorem downloadAccount_forwarding_witness :
    jsonMarshal (.map (downloadParam "p1" 50))
      = .obj [("maxResults", .num "50"), ("nextPageToken", .str "p1")] ∧
    (stubRp "" (.ok tokenOk) (.ok onePage)).DownloadAccount stubAuth stubLib "p1" 50
      = ([.postForm tokenEndpointURL [],
          .request ⟨"POST", relyingPartyURL ++ "/downloadAccount",
            [("Authorization", "Bearer tok123")],
            some (.obj [("maxResults", .num "50"), ("nextPageToken", .str "p1")])⟩],
         ([some { User.zero with LocalID := "u1" }], "p2", none)) ∧
    (stubRp "" (.ok tokenOk) (.ok onePage)).DownloadAccount stubAuthFail stubLib "p1" 50
      = ([.postForm tokenEndpointURL []],
         ([], "", some "gitkit: /oauth2/token 400 invalid_grant")) :=
  ⟨(downloadAccount_forwarding stubAuth (stubRp "" (.ok tokenOk) (.ok onePage)) stubLib
      "p1" 50).1 (by decide),
   (downloadAccount_forwarding stubAuth (stubRp "" (.ok tokenOk) (.ok onePage)) stubLib
      "p1" 50).2.2.1 [.postForm tokenEndpointURL []] "tok123" onePage
      [some { User.zero with LocalID := "u1" }] "p2" rfl rfl rfl (by decide) rfl,
   (downloadAccount_forwarding stubAuthFail (stubRp "" (.ok tokenOk) (.ok onePage))
      stubLib "p1" 50).2.2.2 [.postForm tokenEndpointURL []]
      "gitkit: /oauth2/token 400 invalid_grant" ⟨[], ""⟩ rfl⟩

/-- C10: when the access-token step yields a token and getAccountInfo answers with a
status below 400 and a body that decodes, `GetAccountInfoByID` and
`GetAccountInfoByEmail` return the first element of the decoded users list with a nil
error when the list is not empty, and abort with an index out of range when it is
empty. -/
theorem getAccountInfo_first_user (auth : Authenticator) (rp : relyingParty) (lib : Lib)
    (tr : Trace) (tok : String) (resp : Response) (users : List (Option User))
    (hurl : lib.urlError (relyingPartyURL ++ "/getAccountInfo") = none)
    (hauth : auth rp lib = (tr, (tok, none)))
    (hstatus : resp.StatusCode < 400)
    (hdec : decodeJSON (unmarshalAccountInfoResult lib) resp.Body (.ptr ⟨[]⟩)
      = (none, ⟨users⟩)) :
    (∀ userID,
      rp.hc.Do (bearerRequest "GET" "/getAccountInfo"
        (some (.map [("localId", .strs [userID])])) tok) = .ok resp →
      (∀ u rest, users = u :: rest →
        rp.GetAccountInfoByID auth lib userID
          = (tr ++ [.request (bearerRequest "GET" "/getAccountInfo"
              (some (.map [("localId", .strs [userID])])) tok)], .ret (u, none))) ∧
      (users = [] →
        rp.GetAccountInfoByID auth lib userID
          = (tr ++ [.request (bearerRequest "GET" "/getAccountInfo"
              (some (.map [("localId", .strs [userID])])) tok)],
             .panic "runtime error: index out of range"))) ∧
    (∀ email,
      rp.hc.Do (bearerRequest "GET" "/getAccountInfo"
        (some (.map [("email", .strs [email])])) tok) = .ok resp →
      (∀ u rest, users = u :: rest →
        rp.GetAccountInfoByEmail auth lib email
          = (tr ++ [.request (bearerRequest "GET" "/getAccountInfo"
              (some (.map [("email", .strs [email])])) tok)], .ret (u, none))) ∧
      (users = [] →
        rp.GetAccountInfoByEmail auth lib email
          = (tr ++ [.request (bearerRequest "GET" "/getAccountInfo"
              (some (.map [("email", .strs [email])])) tok)],
             .panic "runtime error: index out of range"))) := by
  refine ⟨?_, ?_⟩
  · intro userID hdo
    have h := doInvoke_bearer auth rp lib (unmarshalAccountInfoResult lib) "GET"
      "/getAccountInfo" (some (.map [("localId", .strs [userID])])) (.ptr ⟨[]⟩) tr tok resp
      hurl hauth hdo hstatus
    refine ⟨?_, ?_⟩
    · intro u rest hu
      subst hu
      simp only [relyingParty.GetAccountInfoByID, relyingParty.invokeWithServiceAccount,
        h, hdec, indexZero]
    · intro hu
      subst hu
      simp only [relyingParty.GetAccountInfoByID, relyingParty.invokeWithServiceAccount,
        h, hdec, indexZero]
  · intro email hdo
    have h := doInvoke_bearer auth rp lib (unmarshalAccountInfoResult lib) "GET"
      "/getAccountInfo" (some (.map [("email", .strs [email])])) (.ptr ⟨[]⟩) tr tok resp
      hurl hauth hdo hstatus
    refine ⟨?_, ?_⟩
    · intro u rest hu
      subst hu
      simp only [relyingParty.GetAccountInfoByEmail, relyingParty.invokeWithServiceAccount,
        h, hdec, indexZero]
    · intro hu
      subst hu
      simp only [relyingParty.GetAccountInfoByEmail, relyingParty.invokeWithServiceAccount,
        h, hdec, indexZero]

/-- Witness of C10: a service reporting the account u1, and a service reporting no
account, under an access-token step yielding tok123. -/
theorem getAccountInfo_first_user_witness :
    (stubRp "" (.ok tokenOk) (.ok oneUser)).GetAccountInfoByID stubAuth stubLib "u1"
      = ([.postForm tokenEndpointURL [],
          .request (bearerRequest "GET" "/getAccountInfo"
            (some (.map [("localId", .strs ["u1"])])) "tok123")],
         .ret (some { User.zero with LocalID := "u1" }, none)) ∧
    (stubRp "" (.ok tokenOk) (.ok noUser)).GetAccountInfoByEmail stubAuth stubLib "a@b.c"
      = ([.postForm tokenEndpointURL [],
          .request (bearerRequest "GET" "/getAccountInfo"
            (some (.map [("email", .strs ["a@b.c"])])) "tok123")],
         .panic "runtime error: index out of range") :=
  ⟨((getAccountInfo_first_user stubAuth (stubRp "" (.ok tokenOk) (.ok oneUser)) stubLib
      [.postForm tokenEndpointURL []] "tok123" oneUser
      [some { User.zero with LocalID := "u1" }] rfl rfl (by decide) rfl).1 "u1" rfl).1
      (some { User.zero with LocalID := "u1" }) [] rfl,
   ((getAccountInfo_first_user stubAuth (stubRp "" (.ok tokenOk) (.ok noUser)) stubLib
      [.postForm tokenEndpointURL []] "tok123" noUser [] rfl rfl (by decide) rfl).2
      "a@b.c" rfl).2 rfl⟩

end Gitkit
